import Mathlib

/-!
Verification development for the spyns Ising-model simulation driver
(`spyns/run.py`).

The driver module `spyns/run.py` is embedded line by line below
(`simulation`, `pre_simulation`, `main_simulation`, `post_simulation`).
The collaborator modules it calls (`spyns.lattice`, `spyns.data`,
`spyns.model`, `spyns.sampling`, `spyns.statistics`) are not part of the
sources under verification; every definition standing in for one of them
carries a doc comment starting with `Modelled from the spec:` and follows
the specification's description of that collaborator.

Besides the value-level semantics, each driver function also reports the
ordered list of externally visible events it performs (seeding the random
source, building the lattice, sampling the initial state, each sweep call
with its index and phase flag, the full-state checkpoint, the trace
write), so that sequencing claims about the driver can be stated directly.
-/

/-- Error taxonomy of the specification.  Only the statistical condition is
exercised by the driver claims below. -/
inductive SpynsError where
  | NoSamplesRecordedError
deriving DecidableEq, Repr

/-- Parameters of a run, as consumed by `spyns.run.simulation`:
seed, lattice dimensions, neighborhood offsets, interaction coefficients,
temperature, production-sweep count, equilibration-sweep count. -/
structure SimulationParameters where
  seed : ℕ
  dimensions : List ℕ
  neighborhood : List (List ℤ)
  interaction_coefficients : List ℚ
  temperature : ℚ
  sweeps : ℕ
  equilibration_sweeps : ℕ
deriving DecidableEq, Repr

/-- Modelled from the spec: the shared uniform random source
(`np.random`, external to the core) as explicit state: the seed it was
given and how many draws have been consumed so far.  The spec directs that
it be modelled as explicit state threaded through every call that needs
randomness. -/
structure Rng where
  seed : ℕ
  counter : ℕ
deriving DecidableEq, Repr

/-- Modelled from the spec: `spyns.lattice.BinaryLattice` (module not under
the verified sources) — immutable structural data: dimensions, the
neighborhood offsets, and the per-offset interaction coefficients. -/
structure BinaryLattice where
  dimensions : List ℕ
  neighborhood : List (List ℤ)
  interaction_coefficients : List ℚ
deriving DecidableEq, Repr

/-- Modelled from the spec: `number_sites` is the product of the dimension
entries. -/
def BinaryLattice.number_sites (lattice : BinaryLattice) : ℕ :=
  lattice.dimensions.prod

/-- Modelled from the spec: decode a linear (row-major) site index into its
multi-dimensional coordinate. -/
def site_coordinates : List ℕ → ℕ → List ℕ
  | [], _ => []
  | _ :: ds, site => site / ds.prod :: site_coordinates ds (site % ds.prod)

/-- Modelled from the spec: re-encode a multi-dimensional coordinate into a
linear (row-major) site index, wrapping each axis modulo its dimension
(periodic boundary conditions). -/
def coordinates_to_site : List ℕ → List ℤ → ℕ
  | d :: ds, c :: cs => (c % (d : ℤ)).toNat * ds.prod + coordinates_to_site ds cs
  | _, _ => 0

/-- Modelled from the spec: the neighbor indices of a site, one per
neighborhood offset, computed by decoding the site, applying the offset
with per-axis wraparound, and re-encoding. -/
def BinaryLattice.neighbors (lattice : BinaryLattice) (site : ℕ) : List ℕ :=
  lattice.neighborhood.map (fun offset =>
    coordinates_to_site lattice.dimensions
      (List.zipWith (fun c o => (c : ℤ) + o) (site_coordinates lattice.dimensions site) offset))

/-- Modelled from the spec: the parity (even/odd sublattice) of a site is
the sum of its coordinate indices modulo 2. -/
def site_parity (dimensions : List ℕ) (site : ℕ) : ℕ :=
  (site_coordinates dimensions site).sum % 2

/-- Modelled from the spec: `spyns.model` local energy — the energy term of
one site: minus its spin times the coefficient-weighted sum of its
neighbors' spins. -/
def local_energy_contribution (lattice : BinaryLattice) (state : List ℤ) (site : ℕ) : ℚ :=
  -((state.getD site 0 : ℤ) : ℚ) *
    (List.zipWith (fun n c => c * ((state.getD n 0 : ℤ) : ℚ))
      (lattice.neighbors site) lattice.interaction_coefficients).sum

/-- Modelled from the spec: total energy is the sum of the local
contributions over all sites, divided by 2 against double counting. -/
def total_energy (lattice : BinaryLattice) (state : List ℤ) : ℚ :=
  ((List.range lattice.number_sites).map (local_energy_contribution lattice state)).sum / 2

/-- Modelled from the spec: magnetization is the sum of all spins. -/
def magnetization (state : List ℤ) : ℚ :=
  (state.map (fun s => ((s : ℤ) : ℚ))).sum

/-- Modelled from the spec: sublattice magnetization — the sum of the spins
of the sites whose coordinate parity matches the requested parity. -/
def magnetization_sublattice (lattice : BinaryLattice) (state : List ℤ) (parity : ℕ) : ℚ :=
  (((List.range lattice.number_sites).filter
      (fun site => site_parity lattice.dimensions site = parity)).map
    (fun site => ((state.getD site 0 : ℤ) : ℚ))).sum

/-- Modelled from the spec: one estimator accumulator — a running
first-moment total (sum over the recorded samples) and the count of samples
recorded. -/
structure Accumulator where
  total : ℚ
  count : ℕ
deriving DecidableEq, Repr

/-- Modelled from the spec: `record` appends a value to the running total
and increments the sample count. -/
def Accumulator.record (a : Accumulator) (value : ℚ) : Accumulator :=
  ⟨a.total + value, a.count + 1⟩

/-- Modelled from the spec: the moment proper is total divided by count,
failing with `NoSamplesRecordedError` when the count is zero; it never
returns a degenerate stand-in value. -/
def Accumulator.moment (a : Accumulator) : Except SpynsError ℚ :=
  if a.count = 0 then Except.error SpynsError.NoSamplesRecordedError
  else Except.ok (a.total / (a.count : ℚ))

/-- Modelled from the spec: the estimator accumulators of the four tracked
observables: energy, magnetization, even-site magnetization, odd-site
magnetization. -/
structure Estimators where
  energy : Accumulator
  magnetization : Accumulator
  magnetization_even_sites : Accumulator
  magnetization_odd_sites : Accumulator
deriving DecidableEq, Repr

/-- Modelled from the spec: freshly set-up accumulators hold zero samples
(and hence a zero running total, the sum over no samples). -/
def Estimators.init : Estimators :=
  ⟨⟨0, 0⟩, ⟨0, 0⟩, ⟨0, 0⟩, ⟨0, 0⟩⟩

/-- Modelled from the spec: one production sweep records one sample into
each of the four accumulators. -/
def Estimators.record_sample (e : Estimators) (en m me mo : ℚ) : Estimators :=
  ⟨e.energy.record en, e.magnetization.record m,
   e.magnetization_even_sites.record me, e.magnetization_odd_sites.record mo⟩

/-- Modelled from the spec: the estimator value the driver reads as
`data.estimators.energy_1st_moment` is the final moment the accumulator
yields to the reporting step — total divided by count, failing with
`NoSamplesRecordedError` when no samples were recorded. -/
def Estimators.energy_1st_moment (e : Estimators) : Except SpynsError ℚ :=
  e.energy.moment

/-- Modelled from the spec: the final magnetization moment yielded to the
reporting step. -/
def Estimators.magnetization_1st_moment (e : Estimators) : Except SpynsError ℚ :=
  e.magnetization.moment

/-- Modelled from the spec: the final even-site magnetization moment
yielded to the reporting step. -/
def Estimators.magnetization_even_sites_1st_moment (e : Estimators) : Except SpynsError ℚ :=
  e.magnetization_even_sites.moment

/-- Modelled from the spec: the final odd-site magnetization moment yielded
to the reporting step. -/
def Estimators.magnetization_odd_sites_1st_moment (e : Estimators) : Except SpynsError ℚ :=
  e.magnetization_odd_sites.moment

/-- Modelled from the spec: one row of the per-sweep trace — sweep index
and the four observable values recorded for that production sweep. -/
structure TraceRow where
  sweep_index : ℕ
  energy : ℚ
  magnetization : ℚ
  magnetization_even_sites : ℚ
  magnetization_odd_sites : ℚ
deriving DecidableEq, Repr

/-- Modelled from the spec: `spyns.data.SimulationData` — the run's data
container: the parameters, the live spin state, the estimator
accumulators, the per-sweep trace rows, and the full-state checkpoint
history. -/
structure SimulationData where
  parameters : SimulationParameters
  state : List ℤ
  estimators : Estimators
  trace : List TraceRow
  saved_states : List (List ℤ)
deriving DecidableEq, Repr

/-- Modelled from the spec: `spyns.data.setup_containers` — fresh data
container with the sampled initial state, zeroed accumulators, empty trace
and empty checkpoint history. -/
def setup_containers (parameters : SimulationParameters) (state : List ℤ) : SimulationData :=
  ⟨parameters, state, Estimators.init, [], []⟩

/-- Modelled from the spec: the stochastic parts of the core that are not
under the verified sources — the initial-state sampler
(`BinaryLattice.sample_random_state`) and one sweep's worth of
single-spin-flip Metropolis trial updates (`spyns.sampling.sweep_grid`'s
in-place state mutation).  Both are deterministic functions of the lattice,
the parameters, and the explicit random-source state; the driver claims
below hold for every such dynamics. -/
structure Dynamics where
  sample_random_state : BinaryLattice → Rng → List ℤ
  sweep_state : BinaryLattice → SimulationParameters → List ℤ → Rng → List ℤ

/-- Externally visible events the driver performs, in order: seeding the
random source, constructing the lattice, sampling the initial state, one
sweep call (with its index and phase flag), the full-state checkpoint, and
the trace write. -/
inductive Event where
  | seedRng (seed : ℕ)
  | buildLattice
  | sampleState
  | sweepCall (sweep_index : ℕ) (equilibration_run : Bool)
  | saveFullState
  | writeTrace
deriving DecidableEq, Repr

/-- Modelled from the spec: `spyns.sampling.sweep_grid` — performs one full
lattice sweep of trial updates (the state mutation abstracted by the
dynamics, the random source advancing by one draw per site), then, exactly
when `equilibration_run` is false, computes the whole-lattice observables
once and appends them to the accumulators and to the trace.  When
`equilibration_run` is true no accumulation occurs. -/
def sweep_grid (dyn : Dynamics) (lattice : BinaryLattice) (data : SimulationData)
    (rng : Rng) (sweep_index : ℕ) (equilibration_run : Bool) : SimulationData × Rng :=
  let new_state := dyn.sweep_state lattice data.parameters data.state rng
  let rng2 : Rng := ⟨rng.seed, rng.counter + lattice.number_sites⟩
  if equilibration_run then
    ({ data with state := new_state }, rng2)
  else
    let en := total_energy lattice new_state
    let m := magnetization new_state
    let me := magnetization_sublattice lattice new_state 0
    let mo := magnetization_sublattice lattice new_state 1
    ({ data with
        state := new_state,
        estimators := data.estimators.record_sample en m me mo,
        trace := data.trace ++ [⟨sweep_index, en, m, me, mo⟩] }, rng2)

/-- Translation of a `for sweep_index in range(...)` loop over `sweep_grid`
calls, reporting the sweep-call events in order. -/
def sweep_loop (dyn : Dynamics) (lattice : BinaryLattice) (equilibration_run : Bool) :
    List ℕ → SimulationData × Rng → (SimulationData × Rng) × List Event
  | [], sr => (sr, [])
  | i :: is, sr =>
    let step := sweep_grid dyn lattice sr.1 sr.2 i equilibration_run
    let rest := sweep_loop dyn lattice equilibration_run is step
    (rest.1, Event.sweepCall i equilibration_run :: rest.2)

/-- Embedding of `spyns.run.pre_simulation`: run the equilibration sweeps,
`sweep_index` ranging over `0 .. equilibration_sweeps - 1`, with
`equilibration_run = true`. -/
def pre_simulation (dyn : Dynamics) (lattice : BinaryLattice)
    (sr : SimulationData × Rng) : (SimulationData × Rng) × List Event :=
  sweep_loop dyn lattice true (List.range sr.1.parameters.equilibration_sweeps) sr

/-- Modelled from the spec: `spyns.model.ising_save_full_state` — snapshot
(deep-copy) the current spin state into the history store; nothing else
changes. -/
def ising_save_full_state (_lattice : BinaryLattice) (data : SimulationData) : SimulationData :=
  { data with saved_states := data.saved_states ++ [data.state] }

/-- Embedding of `spyns.run.main_simulation`: save the full state once,
then run the production sweeps, `sweep_index` ranging over
`0 .. sweeps - 1`, with `equilibration_run = false`. -/
def main_simulation (dyn : Dynamics) (lattice : BinaryLattice)
    (sr : SimulationData × Rng) : (SimulationData × Rng) × List Event :=
  let data := ising_save_full_state lattice sr.1
  let rest := sweep_loop dyn lattice false (List.range data.parameters.sweeps) (data, sr.2)
  (rest.1, Event.saveFullState :: rest.2)

/-- Modelled from the spec: `spyns.data.write_trace_to_disk` — hand the
accumulated per-sweep trace to the external persistence service; the
simulation data itself is not mutated. -/
def write_trace_to_disk (data : SimulationData) : SimulationData × List Event :=
  (data, [Event.writeTrace])

/-- The three values `spyns.run.post_simulation` prints. -/
structure Report where
  average_energy : ℚ
  fm_order_parameter : ℚ
  afm_order_parameter : ℚ
deriving DecidableEq, Repr

/-- Embedding of `spyns.run.post_simulation`: write the trace to disk, then
compute and print the average energy (energy moment over `number_sites`),
the FM order parameter (magnetization moment over `number_sites`) and the
AFM order parameter (even-site minus odd-site magnetization moment, over
`number_sites`).  The moment reads are the accumulator yields, which fail
when no samples were recorded. -/
def post_simulation (lattice : BinaryLattice) (data : SimulationData) :
    (SimulationData × Except SpynsError Report) × List Event :=
  let written := write_trace_to_disk data
  ((written.1,
    do
      let average_energy ← written.1.estimators.energy_1st_moment
      let fm ← written.1.estimators.magnetization_1st_moment
      let even ← written.1.estimators.magnetization_even_sites_1st_moment
      let odd ← written.1.estimators.magnetization_odd_sites_1st_moment
      Except.ok
        ⟨average_energy / (lattice.number_sites : ℚ),
         fm / (lattice.number_sites : ℚ),
         (even - odd) / (lattice.number_sites : ℚ)⟩),
   written.2)

/-- Embedding of `BinaryLattice(parameters.dimensions,
parameters.neighborhood, parameters.interaction_coefficients)` from
`spyns.run.simulation`. -/
def build_lattice (parameters : SimulationParameters) : BinaryLattice :=
  ⟨parameters.dimensions, parameters.neighborhood, parameters.interaction_coefficients⟩

/-- Result of one full run: the final data container, the reported values
(or the reporting failure), and the ordered event list. -/
structure RunResult where
  data : SimulationData
  report : Except SpynsError Report
  events : List Event
deriving Repr

/-- Stage 1 of `spyns.run.simulation`: seed the random source from the
parameters, build the lattice, sample the initial random state (consuming
one draw per site), and set up the data containers. -/
def simulation_stage_setup (dyn : Dynamics) (parameters : SimulationParameters) :
    SimulationData × Rng :=
  let rng : Rng := ⟨parameters.seed, 0⟩
  let lattice := build_lattice parameters
  let state := dyn.sample_random_state lattice rng
  (setup_containers parameters state, ⟨rng.seed, rng.counter + lattice.number_sites⟩)

/-- Stage 2 of `spyns.run.simulation`: the `pre_simulation` call. -/
def simulation_stage_pre (dyn : Dynamics) (parameters : SimulationParameters) :
    (SimulationData × Rng) × List Event :=
  pre_simulation dyn (build_lattice parameters) (simulation_stage_setup dyn parameters)

/-- Stage 3 of `spyns.run.simulation`: the `main_simulation` call. -/
def simulation_stage_main (dyn : Dynamics) (parameters : SimulationParameters) :
    (SimulationData × Rng) × List Event :=
  main_simulation dyn (build_lattice parameters) (simulation_stage_pre dyn parameters).1

/-- Stage 4 of `spyns.run.simulation`: the `post_simulation` call. -/
def simulation_stage_post (dyn : Dynamics) (parameters : SimulationParameters) :
    (SimulationData × Except SpynsError Report) × List Event :=
  post_simulation (build_lattice parameters) (simulation_stage_main dyn parameters).1.1

/-- Embedding of `spyns.run.simulation`: seed the shared random source from
the parameters (once, first), build the lattice, sample the initial state,
set up the containers, then run `pre_simulation`, `main_simulation` and
`post_simulation` in order, returning the final data. -/
def simulation (dyn : Dynamics) (parameters : SimulationParameters) : RunResult :=
  ⟨(simulation_stage_post dyn parameters).1.1,
   (simulation_stage_post dyn parameters).1.2,
   Event.seedRng parameters.seed :: Event.buildLattice :: Event.sampleState ::
     ((simulation_stage_pre dyn parameters).2 ++ (simulation_stage_main dyn parameters).2 ++
      (simulation_stage_post dyn parameters).2)⟩

/-- A concrete dynamics instance used for evaluating the development on
closed inputs: the sampler returns the all-up state and the sweep leaves
the state unchanged (every trial rejected). -/
def frozen_dynamics : Dynamics :=
  ⟨fun lattice _ => List.replicate lattice.number_sites 1, fun _ _ state _ => state⟩

/-- The nearest-neighbor offsets of a two-dimensional lattice. -/
def nearest_neighborhood_2d : List (List ℤ) :=
  [[1, 0], [-1, 0], [0, 1], [0, -1]]

/-- The end-to-end scenario of the specification: a 4 by 4 lattice,
nearest-neighbor coupling coefficient 1 on all four offsets, temperature 2,
a fixed seed, 0 equilibration sweeps, 1 production sweep. -/
def scenario_parameters (seed : ℕ) : SimulationParameters :=
  ⟨seed, [4, 4], nearest_neighborhood_2d, [1, 1, 1, 1], 2, 1, 0⟩

/-! ### Structural lemmas about `sweep_grid` and the sweep loop -/

theorem sweep_grid_parameters (dyn : Dynamics) (lattice : BinaryLattice)
    (data : SimulationData) (rng : Rng) (i : ℕ) (eq : Bool) :
    (sweep_grid dyn lattice data rng i eq).1.parameters = data.parameters := by
  cases eq <;> simp [sweep_grid]

theorem sweep_grid_saved_states (dyn : Dynamics) (lattice : BinaryLattice)
    (data : SimulationData) (rng : Rng) (i : ℕ) (eq : Bool) :
    (sweep_grid dyn lattice data rng i eq).1.saved_states = data.saved_states := by
  cases eq <;> simp [sweep_grid]

theorem sweep_grid_true_estimators (dyn : Dynamics) (lattice : BinaryLattice)
    (data : SimulationData) (rng : Rng) (i : ℕ) :
    (sweep_grid dyn lattice data rng i true).1.estimators = data.estimators := by
  simp [sweep_grid]

theorem sweep_grid_false_counts (dyn : Dynamics) (lattice : BinaryLattice)
    (data : SimulationData) (rng : Rng) (i : ℕ) :
    (sweep_grid dyn lattice data rng i false).1.estimators.energy.count
        = data.estimators.energy.count + 1 ∧
    (sweep_grid dyn lattice data rng i false).1.estimators.magnetization.count
        = data.estimators.magnetization.count + 1 ∧
    (sweep_grid dyn lattice data rng i false).1.estimators.magnetization_even_sites.count
        = data.estimators.magnetization_even_sites.count + 1 ∧
    (sweep_grid dyn lattice data rng i false).1.estimators.magnetization_odd_sites.count
        = data.estimators.magnetization_odd_sites.count + 1 := by
  simp [sweep_grid, Estimators.record_sample, Accumulator.record]

theorem sweep_loop_events (dyn : Dynamics) (lattice : BinaryLattice) (eq : Bool)
    (is : List ℕ) : ∀ sr, (sweep_loop dyn lattice eq is sr).2
      = is.map (fun i => Event.sweepCall i eq) := by
  induction is with
  | nil => intro sr; rfl
  | cons i is ih => intro sr; simp [sweep_loop, ih]

theorem sweep_loop_parameters (dyn : Dynamics) (lattice : BinaryLattice) (eq : Bool)
    (is : List ℕ) : ∀ sr, (sweep_loop dyn lattice eq is sr).1.1.parameters
      = sr.1.parameters := by
  induction is with
  | nil => intro sr; rfl
  | cons i is ih => intro sr; simp [sweep_loop, ih, sweep_grid_parameters]

theorem sweep_loop_saved_states (dyn : Dynamics) (lattice : BinaryLattice) (eq : Bool)
    (is : List ℕ) : ∀ sr, (sweep_loop dyn lattice eq is sr).1.1.saved_states
      = sr.1.saved_states := by
  induction is with
  | nil => intro sr; rfl
  | cons i is ih => intro sr; simp [sweep_loop, ih, sweep_grid_saved_states]

theorem sweep_loop_true_estimators (dyn : Dynamics) (lattice : BinaryLattice)
    (is : List ℕ) : ∀ sr, (sweep_loop dyn lattice true is sr).1.1.estimators
      = sr.1.estimators := by
  induction is with
  | nil => intro sr; rfl
  | cons i is ih => intro sr; simp [sweep_loop, ih, sweep_grid_true_estimators]

theorem sweep_loop_false_counts (dyn : Dynamics) (lattice : BinaryLattice)
    (is : List ℕ) : ∀ sr,
    (sweep_loop dyn lattice false is sr).1.1.estimators.energy.count
        = sr.1.estimators.energy.count + is.length ∧
    (sweep_loop dyn lattice false is sr).1.1.estimators.magnetization.count
        = sr.1.estimators.magnetization.count + is.length ∧
    (sweep_loop dyn lattice false is sr).1.1.estimators.magnetization_even_sites.count
        = sr.1.estimators.magnetization_even_sites.count + is.length ∧
    (sweep_loop dyn lattice false is sr).1.1.estimators.magnetization_odd_sites.count
        = sr.1.estimators.magnetization_odd_sites.count + is.length := by
  induction is with
  | nil => intro sr; simp [sweep_loop]
  | cons i is ih =>
    intro sr
    have hstep := sweep_grid_false_counts dyn lattice sr.1 sr.2 i
    have hrest := ih (sweep_grid dyn lattice sr.1 sr.2 i false)
    simp only [sweep_loop, List.length_cons]
    exact ⟨by omega, by omega, by omega, by omega⟩

/-! ### Stage lemmas assembling one full run -/

theorem simulation_stage_pre_parameters (dyn : Dynamics) (p : SimulationParameters) :
    (simulation_stage_pre dyn p).1.1.parameters = p := by
  simp [simulation_stage_pre, pre_simulation, sweep_loop_parameters,
    simulation_stage_setup, setup_containers]

theorem simulation_stage_pre_estimators (dyn : Dynamics) (p : SimulationParameters) :
    (simulation_stage_pre dyn p).1.1.estimators = Estimators.init := by
  simp [simulation_stage_pre, pre_simulation, sweep_loop_true_estimators,
    simulation_stage_setup, setup_containers]

theorem simulation_stage_pre_saved_states (dyn : Dynamics) (p : SimulationParameters) :
    (simulation_stage_pre dyn p).1.1.saved_states = [] := by
  simp [simulation_stage_pre, pre_simulation, sweep_loop_saved_states,
    simulation_stage_setup, setup_containers]

theorem simulation_stage_pre_events (dyn : Dynamics) (p : SimulationParameters) :
    (simulation_stage_pre dyn p).2
      = (List.range p.equilibration_sweeps).map (fun i => Event.sweepCall i true) := by
  simp [simulation_stage_pre, pre_simulation, sweep_loop_events,
    simulation_stage_setup, setup_containers]

theorem main_simulation_counts (dyn : Dynamics) (lattice : BinaryLattice)
    (sr : SimulationData × Rng) :
    (main_simulation dyn lattice sr).1.1.estimators.energy.count
        = sr.1.estimators.energy.count + sr.1.parameters.sweeps ∧
    (main_simulation dyn lattice sr).1.1.estimators.magnetization.count
        = sr.1.estimators.magnetization.count + sr.1.parameters.sweeps ∧
    (main_simulation dyn lattice sr).1.1.estimators.magnetization_even_sites.count
        = sr.1.estimators.magnetization_even_sites.count + sr.1.parameters.sweeps ∧
    (main_simulation dyn lattice sr).1.1.estimators.magnetization_odd_sites.count
        = sr.1.estimators.magnetization_odd_sites.count + sr.1.parameters.sweeps := by
  have h := sweep_loop_false_counts dyn lattice
    (List.range (ising_save_full_state lattice sr.1).parameters.sweeps)
    (ising_save_full_state lattice sr.1, sr.2)
  simp only [main_simulation]
  simpa [ising_save_full_state] using h

theorem main_simulation_saved_states (dyn : Dynamics) (lattice : BinaryLattice)
    (sr : SimulationData × Rng) :
    (main_simulation dyn lattice sr).1.1.saved_states
      = sr.1.saved_states ++ [sr.1.state] := by
  have h := sweep_loop_saved_states dyn lattice false
    (List.range (ising_save_full_state lattice sr.1).parameters.sweeps)
    (ising_save_full_state lattice sr.1, sr.2)
  simp only [main_simulation]
  simpa [ising_save_full_state] using h

theorem main_simulation_events (dyn : Dynamics) (lattice : BinaryLattice)
    (sr : SimulationData × Rng) :
    (main_simulation dyn lattice sr).2
      = Event.saveFullState ::
          (List.range sr.1.parameters.sweeps).map (fun i => Event.sweepCall i false) := by
  simp [main_simulation, sweep_loop_events, ising_save_full_state]

theorem simulation_data_eq (dyn : Dynamics) (p : SimulationParameters) :
    (simulation dyn p).data = (simulation_stage_main dyn p).1.1 := rfl

theorem simulation_report_eq (dyn : Dynamics) (p : SimulationParameters) :
    (simulation dyn p).report
      = (post_simulation (build_lattice p) (simulation dyn p).data).1.2 := rfl

theorem simulation_counts (dyn : Dynamics) (p : SimulationParameters) :
    (simulation dyn p).data.estimators.energy.count = p.sweeps ∧
    (simulation dyn p).data.estimators.magnetization.count = p.sweeps ∧
    (simulation dyn p).data.estimators.magnetization_even_sites.count = p.sweeps ∧
    (simulation dyn p).data.estimators.magnetization_odd_sites.count = p.sweeps := by
  have h := main_simulation_counts dyn (build_lattice p) (simulation_stage_pre dyn p).1
  rw [simulation_data_eq]
  simp only [simulation_stage_main]
  simpa [simulation_stage_pre_parameters, simulation_stage_pre_estimators,
    Estimators.init] using h

theorem simulation_saved_states (dyn : Dynamics) (p : SimulationParameters) :
    (simulation dyn p).data.saved_states
      = [(simulation_stage_pre dyn p).1.1.state] := by
  have h := main_simulation_saved_states dyn (build_lattice p) (simulation_stage_pre dyn p).1
  rw [simulation_data_eq]
  simp only [simulation_stage_main]
  simpa [simulation_stage_pre_saved_states] using h

theorem simulation_events_eq (dyn : Dynamics) (p : SimulationParameters) :
    (simulation dyn p).events
      = Event.seedRng p.seed :: Event.buildLattice :: Event.sampleState ::
          ((List.range p.equilibration_sweeps).map (fun i => Event.sweepCall i true) ++
            ((Event.saveFullState ::
                (List.range p.sweeps).map (fun i => Event.sweepCall i false)) ++
              [Event.writeTrace])) := by
  have hmain := main_simulation_events dyn (build_lattice p) (simulation_stage_pre dyn p).1
  rw [simulation_stage_pre_parameters] at hmain
  simp [simulation, simulation_stage_main, hmain, simulation_stage_pre_events,
    simulation_stage_post, post_simulation, write_trace_to_disk]

/-! ### Event classification helpers -/

/-- Whether an event is a sweep call. -/
def Event.isSweepCall : Event → Bool
  | .sweepCall _ _ => true
  | _ => false

/-- The sweep index of a production sweep call, if the event is one. -/
def Event.prod_sweep_index : Event → Option ℕ
  | .sweepCall i false => some i
  | _ => none

/-- The sweep index of an equilibration sweep call, if the event is one. -/
def Event.equil_sweep_index : Event → Option ℕ
  | .sweepCall i true => some i
  | _ => none

theorem filter_isSweepCall_map (b : Bool) (l : List ℕ) :
    ((l.map (fun i => Event.sweepCall i b)).filter Event.isSweepCall)
      = l.map (fun i => Event.sweepCall i b) := by
  induction l with
  | nil => rfl
  | cons x xs ih => simp [Event.isSweepCall, ih]

theorem filterMap_prod_sweep_index_false (l : List ℕ) :
    List.filterMap (Event.prod_sweep_index ∘ fun i => Event.sweepCall i false) l = l := by
  induction l with
  | nil => rfl
  | cons x xs ih => simp [Event.prod_sweep_index, ih, Function.comp]

theorem filterMap_prod_sweep_index_true (l : List ℕ) :
    List.filterMap (Event.prod_sweep_index ∘ fun i => Event.sweepCall i true) l = [] := by
  induction l with
  | nil => rfl
  | cons x xs ih => simp [Event.prod_sweep_index, ih, Function.comp]

theorem filterMap_equil_sweep_index_true (l : List ℕ) :
    List.filterMap (Event.equil_sweep_index ∘ fun i => Event.sweepCall i true) l = l := by
  induction l with
  | nil => rfl
  | cons x xs ih => simp [Event.equil_sweep_index, ih, Function.comp]

theorem filterMap_equil_sweep_index_false (l : List ℕ) :
    List.filterMap (Event.equil_sweep_index ∘ fun i => Event.sweepCall i false) l = [] := by
  induction l with
  | nil => rfl
  | cons x xs ih => simp [Event.equil_sweep_index, ih, Function.comp]

/-! ### Claim theorems about the driver's sequencing -/

/-- Claim C3: in every simulation run, the full-state checkpoint of the
spin state is taken exactly once, after all equilibration sweeps have
completed and before the first production sweep executes. -/
theorem C3_checkpoint_once_between_phases (dyn : Dynamics) (p : SimulationParameters) :
    ∃ A B : List Event,
      (simulation dyn p).events = A ++ Event.saveFullState :: B ∧
      Event.saveFullState ∉ A ∧
      Event.saveFullState ∉ B ∧
      (∀ i : ℕ, Event.sweepCall i false ∉ A) ∧
      (∀ i : ℕ, Event.sweepCall i true ∉ B) := by
  refine ⟨Event.seedRng p.seed :: Event.buildLattice :: Event.sampleState ::
      (List.range p.equilibration_sweeps).map (fun i => Event.sweepCall i true),
    (List.range p.sweeps).map (fun i => Event.sweepCall i false) ++ [Event.writeTrace],
    ?_, ?_, ?_, ?_, ?_⟩
  · rw [simulation_events_eq]; simp
  · simp
  · simp
  · intro i; simp
  · intro i; simp

/-- Claim C5: every simulation run seeds the shared uniform random source
exactly once, before the lattice is constructed, before the initial random
spin state is sampled, and before any sweep; it is never reseeded later in
the run. -/
theorem C5_seeded_once_before_everything (dyn : Dynamics) (p : SimulationParameters) :
    ∃ rest : List Event,
      (simulation dyn p).events
        = Event.seedRng p.seed :: Event.buildLattice :: Event.sampleState :: rest ∧
      ∀ s : ℕ, Event.seedRng s ∉ Event.buildLattice :: Event.sampleState :: rest := by
  refine ⟨(List.range p.equilibration_sweeps).map (fun i => Event.sweepCall i true) ++
      ((Event.saveFullState ::
          (List.range p.sweeps).map (fun i => Event.sweepCall i false)) ++
        [Event.writeTrace]),
    simulation_events_eq dyn p, ?_⟩
  intro s
  simp

/-- Claim C6: the driver performs exactly `equilibration_sweeps` sweep
calls with `equilibration_run = true` (during which no accumulation
occurs), then exactly `sweeps` sweep calls with `equilibration_run =
false`; all equilibration sweeps precede all production sweeps, and the
reporting/persistence step comes only after the last production sweep. -/
theorem C6_phase_sequencing (dyn : Dynamics) (p : SimulationParameters) :
    ∃ A B : List Event,
      (simulation dyn p).events = A ++ B ++ [Event.writeTrace] ∧
      A.filter Event.isSweepCall
        = (List.range p.equilibration_sweeps).map (fun i => Event.sweepCall i true) ∧
      B.filter Event.isSweepCall
        = (List.range p.sweeps).map (fun i => Event.sweepCall i false) ∧
      (∀ i : ℕ, Event.sweepCall i false ∉ A) ∧
      (∀ i : ℕ, Event.sweepCall i true ∉ B) ∧
      (∀ (data : SimulationData) (rng : Rng) (i : ℕ),
        (sweep_grid dyn (build_lattice p) data rng i true).1.estimators
          = data.estimators) := by
  refine ⟨Event.seedRng p.seed :: Event.buildLattice :: Event.sampleState ::
      (List.range p.equilibration_sweeps).map (fun i => Event.sweepCall i true),
    Event.saveFullState :: (List.range p.sweeps).map (fun i => Event.sweepCall i false),
    ?_, ?_, ?_, ?_, ?_, ?_⟩
  · rw [simulation_events_eq]; simp
  · simp [Event.isSweepCall, filter_isSweepCall_map]
  · simp [Event.isSweepCall, filter_isSweepCall_map]
  · intro i; simp
  · intro i; simp
  · intro data rng i; exact sweep_grid_true_estimators dyn (build_lattice p) data rng i

/-- Claim C9: the `sweep_index` values passed to `sweep_grid` during
production sweeps restart at 0 and range over `0 .. sweeps - 1` in
increasing order, independent of how many equilibration sweeps were
performed; equilibration sweeps use their own index sequence
`0 .. equilibration_sweeps - 1`. -/
theorem C9_sweep_index_sequences (dyn : Dynamics) (p : SimulationParameters) :
    (simulation dyn p).events.filterMap Event.prod_sweep_index = List.range p.sweeps ∧
    (simulation dyn p).events.filterMap Event.equil_sweep_index
      = List.range p.equilibration_sweeps := by
  rw [simulation_events_eq]
  constructor
  · simp [Event.prod_sweep_index, filterMap_prod_sweep_index_false,
      filterMap_prod_sweep_index_true]
  · simp [Event.equil_sweep_index, filterMap_equil_sweep_index_true,
      filterMap_equil_sweep_index_false]

/-- Claim C10: even when the configured production-sweep count is zero, the
run still saves the full-state checkpoint and still writes the trace: both
steps execute unconditionally. -/
theorem C10_checkpoint_and_trace_unconditional (dyn : Dynamics)
    (p : SimulationParameters) (_h : p.sweeps = 0) :
    Event.saveFullState ∈ (simulation dyn p).events ∧
    Event.writeTrace ∈ (simulation dyn p).events ∧
    (simulation dyn p).data.saved_states.length = 1 := by
  refine ⟨?_, ?_, ?_⟩
  · rw [simulation_events_eq]; simp
  · rw [simulation_events_eq]; simp
  · rw [simulation_saved_states]; rfl

/-! ### Claim theorems about the reported values -/

theorem spyns_bind_error {β : Type} (e : SpynsError) (f : ℚ → Except SpynsError β) :
    (Except.error e >>= f : Except SpynsError β) = Except.error e := rfl

theorem spyns_bind_ok {β : Type} (a : ℚ) (f : ℚ → Except SpynsError β) :
    (Except.ok a >>= f : Except SpynsError β) = f a := rfl

/-- Claim C1: for every run whose accumulator sample count is zero (for
example, a run with zero production sweeps), requesting a final moment
fails with `NoSamplesRecordedError`; the reporting step never silently
returns a degenerate value such as 0 that could be mistaken for a real
measurement. -/
theorem C1_zero_samples_reporting_fails (dyn : Dynamics) (p : SimulationParameters)
    (h : p.sweeps = 0) :
    (simulation dyn p).data.estimators.energy.count = 0 ∧
    (simulation dyn p).data.estimators.energy_1st_moment
      = Except.error SpynsError.NoSamplesRecordedError ∧
    (simulation dyn p).report = Except.error SpynsError.NoSamplesRecordedError ∧
    ∀ r : Report, (simulation dyn p).report ≠ Except.ok r := by
  obtain ⟨h1, _h2, _h3, _h4⟩ := simulation_counts dyn p
  rw [h] at h1
  have hm : (simulation dyn p).data.estimators.energy_1st_moment
      = Except.error SpynsError.NoSamplesRecordedError := by
    simp [Estimators.energy_1st_moment, Accumulator.moment, h1]
  have hr : (simulation dyn p).report = Except.error SpynsError.NoSamplesRecordedError := by
    rw [simulation_report_eq]
    simp [post_simulation, write_trace_to_disk, Estimators.energy_1st_moment,
      Accumulator.moment, h1, spyns_bind_error]
  exact ⟨h1, hm, hr, fun r => by simp [hr]⟩

/-- Claim C2: for every completed run (at least one production sweep), the
final reported values are moments (accumulator total divided by sample
count) normalized by `number_sites`: the average energy is the energy
moment over `number_sites`, the FM order parameter is the magnetization
moment over `number_sites`, and the AFM order parameter is the difference
of the even-site and odd-site magnetization moments over `number_sites`. -/
theorem C2_reported_values_are_normalized_moments (dyn : Dynamics)
    (p : SimulationParameters) (h : 0 < p.sweeps) :
    ∃ e m me mo : ℚ,
      (simulation dyn p).data.estimators.energy.moment = Except.ok e ∧
      (simulation dyn p).data.estimators.magnetization.moment = Except.ok m ∧
      (simulation dyn p).data.estimators.magnetization_even_sites.moment = Except.ok me ∧
      (simulation dyn p).data.estimators.magnetization_odd_sites.moment = Except.ok mo ∧
      (simulation dyn p).report
        = Except.ok
            ⟨e / ((build_lattice p).number_sites : ℚ),
             m / ((build_lattice p).number_sites : ℚ),
             (me - mo) / ((build_lattice p).number_sites : ℚ)⟩ := by
  obtain ⟨h1, h2, h3, h4⟩ := simulation_counts dyn p
  have hne : p.sweeps ≠ 0 := Nat.pos_iff_ne_zero.mp h
  refine ⟨(simulation dyn p).data.estimators.energy.total / (p.sweeps : ℚ),
    (simulation dyn p).data.estimators.magnetization.total / (p.sweeps : ℚ),
    (simulation dyn p).data.estimators.magnetization_even_sites.total / (p.sweeps : ℚ),
    (simulation dyn p).data.estimators.magnetization_odd_sites.total / (p.sweeps : ℚ),
    ?_, ?_, ?_, ?_, ?_⟩
  · simp [Accumulator.moment, h1, hne]
  · simp [Accumulator.moment, h2, hne]
  · simp [Accumulator.moment, h3, hne]
  · simp [Accumulator.moment, h4, hne]
  · rw [simulation_report_eq]
    simp [post_simulation, write_trace_to_disk, Estimators.energy_1st_moment,
      Estimators.magnetization_1st_moment, Estimators.magnetization_even_sites_1st_moment,
      Estimators.magnetization_odd_sites_1st_moment, Accumulator.moment,
      h1, h2, h3, h4, hne, spyns_bind_ok]

/-- Claim C4: for every fixed parameter set including the seed, two
independent invocations of `simulation` produce identical final
accumulator moments: the run is a deterministic function of its
parameters (all randomness is drawn from the shared source, which is
seeded from the parameters once at the start of the run). -/
theorem C4_run_is_deterministic (dyn : Dynamics) (p1 p2 : SimulationParameters)
    (h : p1 = p2) :
    (simulation dyn p1).data.estimators.energy.moment
        = (simulation dyn p2).data.estimators.energy.moment ∧
    (simulation dyn p1).data.estimators.magnetization.moment
        = (simulation dyn p2).data.estimators.magnetization.moment ∧
    (simulation dyn p1).data.estimators.magnetization_even_sites.moment
        = (simulation dyn p2).data.estimators.magnetization_even_sites.moment ∧
    (simulation dyn p1).data.estimators.magnetization_odd_sites.moment
        = (simulation dyn p2).data.estimators.magnetization_odd_sites.moment ∧
    (simulation dyn p1).report = (simulation dyn p2).report := by
  subst h
  exact ⟨rfl, rfl, rfl, rfl, rfl⟩

/-- Claim C7: for a run configured with 0 equilibration sweeps and 1
production sweep on a 4 by 4 lattice with all coupling coefficients 1,
temperature 2 and a fixed seed, the energy and magnetization accumulators
each contain exactly 1 recorded sample at the end of the run, and the
reported moments equal that single sweep's measured energy and
magnetization exactly. -/
theorem C7_single_sweep_scenario (dyn : Dynamics) (seed : ℕ) :
    (simulation dyn (scenario_parameters seed)).data.estimators.energy.count = 1 ∧
    (simulation dyn (scenario_parameters seed)).data.estimators.magnetization.count = 1 ∧
    (simulation dyn (scenario_parameters seed)).data.estimators.energy.moment
      = Except.ok (total_energy (build_lattice (scenario_parameters seed))
          (simulation dyn (scenario_parameters seed)).data.state) ∧
    (simulation dyn (scenario_parameters seed)).data.estimators.magnetization.moment
      = Except.ok (magnetization (simulation dyn (scenario_parameters seed)).data.state) := by
  simp [simulation_data_eq, simulation_stage_main, main_simulation, simulation_stage_pre,
    pre_simulation, simulation_stage_setup, setup_containers, scenario_parameters,
    ising_save_full_state, sweep_loop, sweep_grid, Estimators.init,
    Estimators.record_sample, Accumulator.record, Accumulator.moment]

/-- Claim C8: the reporting step (`post_simulation`: trace writing and
printing of final values) never mutates the simulation data: every
accumulator field and the spin state are left unchanged, and the final
data of every full run is exactly the data that entered the reporting
step. -/
theorem C8_reporting_is_read_only (lattice : BinaryLattice) (data : SimulationData) :
    (post_simulation lattice data).1.1.estimators = data.estimators ∧
    (post_simulation lattice data).1.1.state = data.state ∧
    (post_simulation lattice data).1.1 = data ∧
    ∀ (dyn : Dynamics) (p : SimulationParameters),
      (simulation dyn p).data = (simulation_stage_main dyn p).1.1 :=
  ⟨rfl, rfl, rfl, fun dyn p => simulation_data_eq dyn p⟩

/-! ### Concrete runs witnessing the hypothesized claims -/

/-- A concrete parameter set with zero production sweeps (and three
equilibration sweeps) on a 2 by 2 lattice. -/
def zero_sweep_parameters : SimulationParameters :=
  ⟨7, [2, 2], nearest_neighborhood_2d, [1, 1, 1, 1], 2, 0, 3⟩

/-- A concrete parameter set with two production sweeps (and one
equilibration sweep) on a 2 by 2 lattice. -/
def two_sweep_parameters : SimulationParameters :=
  ⟨3, [2, 2], nearest_neighborhood_2d, [1, 1, 1, 1], 2, 2, 1⟩

/-- Witness for C1: a concrete zero-production-sweep run whose reporting
step fails with `NoSamplesRecordedError`. -/
theorem C1_zero_samples_reporting_fails_witness :
    (simulation frozen_dynamics zero_sweep_parameters).data.estimators.energy.count = 0 ∧
    (simulation frozen_dynamics zero_sweep_parameters).data.estimators.energy_1st_moment
      = Except.error SpynsError.NoSamplesRecordedError ∧
    (simulation frozen_dynamics zero_sweep_parameters).report
      = Except.error SpynsError.NoSamplesRecordedError ∧
    ∀ r : Report, (simulation frozen_dynamics zero_sweep_parameters).report ≠ Except.ok r :=
  C1_zero_samples_reporting_fails frozen_dynamics zero_sweep_parameters rfl

/-- Witness for C2: a concrete two-production-sweep run whose report is the
moments normalized by `number_sites`. -/
theorem C2_reported_values_are_normalized_moments_witness :
    ∃ e m me mo : ℚ,
      (simulation frozen_dynamics two_sweep_parameters).data.estimators.energy.moment
        = Except.ok e ∧
      (simulation frozen_dynamics two_sweep_parameters).data.estimators.magnetization.moment
        = Except.ok m ∧
      (simulation frozen_dynamics
            two_sweep_parameters).data.estimators.magnetization_even_sites.moment
        = Except.ok me ∧
      (simulation frozen_dynamics
            two_sweep_parameters).data.estimators.magnetization_odd_sites.moment
        = Except.ok mo ∧
      (simulation frozen_dynamics two_sweep_parameters).report
        = Except.ok
            ⟨e / ((build_lattice two_sweep_parameters).number_sites : ℚ),
             m / ((build_lattice two_sweep_parameters).number_sites : ℚ),
             (me - mo) / ((build_lattice two_sweep_parameters).number_sites : ℚ)⟩ :=
  C2_reported_values_are_normalized_moments frozen_dynamics two_sweep_parameters (by decide)

/-- Witness for C4: two invocations of the same concrete run agree on all
final moments and on the report. -/
theorem C4_run_is_deterministic_witness :
    (simulation frozen_dynamics two_sweep_parameters).data.estimators.energy.moment
        = (simulation frozen_dynamics two_sweep_parameters).data.estimators.energy.moment ∧
    (simulation frozen_dynamics two_sweep_parameters).data.estimators.magnetization.moment
        = (simulation frozen_dynamics
              two_sweep_parameters).data.estimators.magnetization.moment ∧
    (simulation frozen_dynamics
          two_sweep_parameters).data.estimators.magnetization_even_sites.moment
        = (simulation frozen_dynamics
              two_sweep_parameters).data.estimators.magnetization_even_sites.moment ∧
    (simulation frozen_dynamics
          two_sweep_parameters).data.estimators.magnetization_odd_sites.moment
        = (simulation frozen_dynamics
              two_sweep_parameters).data.estimators.magnetization_odd_sites.moment ∧
    (simulation frozen_dynamics two_sweep_parameters).report
        = (simulation frozen_dynamics two_sweep_parameters).report :=
  C4_run_is_deterministic frozen_dynamics two_sweep_parameters two_sweep_parameters rfl

/-- Witness for C10: the concrete zero-production-sweep run still performs
the checkpoint and the trace write. -/
theorem C10_checkpoint_and_trace_unconditional_witness :
    Event.saveFullState ∈ (simulation frozen_dynamics zero_sweep_parameters).events ∧
    Event.writeTrace ∈ (simulation frozen_dynamics zero_sweep_parameters).events ∧
    (simulation frozen_dynamics zero_sweep_parameters).data.saved_states.length = 1 :=
  C10_checkpoint_and_trace_unconditional frozen_dynamics zero_sweep_parameters rfl

